import Mathlib

/-!
Verification of the slog-gorm logging adapter (Go).

The repository attaches a structured-logging backend (slog) to the GORM
object-relational mapper.  Its two components are a fluent configuration
object (`config` in config.go) and a thin adapter (`logger`) that decides,
per SQL statement execution, which severity level, message and attributes
to emit.

Shallow embedding conventions:
  * `time.Duration` (int64 nanoseconds) is modelled as `Int`.
  * Go references (the slog handler, the `map[string]any` held in
    `contextKeys`, function values, logger instances) are modelled as `Nat`
    reference identifiers; a `Heap` maps map-references to association
    lists and supplies fresh identifiers, so that aliasing and deep-copy
    behaviour of `clone` are observable.
  * Opaque `any` values stored in the context-keys map are modelled as
    `Nat`.
  * Go `panic` is modelled by `Except String`.
-/

namespace SlogGorm

/-- One nanosecond-denominated millisecond, as in Go `time.Millisecond`. -/
def millisecond : Int := 1000000

/-- Heap of Go map objects: a map-reference (`Nat`) points to an
association list from attribute names to opaque context-key values;
`next` is the next fresh reference identifier. -/
structure Heap where
  maps : Nat → List (String × Nat)
  next : Nat

/-- Allocate a fresh map object holding `contents`; returns the updated
heap and the new reference. -/
def Heap.alloc (h : Heap) (contents : List (String × Nat)) : Heap × Nat :=
  ({ maps := fun r => if r = h.next then contents else h.maps r
     next := h.next + 1 }, h.next)

/-- Allocate a fresh instance identifier (used for logger identity). -/
def Heap.allocId (h : Heap) : Heap × Nat :=
  ({ h with next := h.next + 1 }, h.next)

/-- Go map assignment `m[k] = v`: replace the binding if the key is
present, otherwise add it. -/
def setEntry (m : List (String × Nat)) (k : String) (v : Nat) :
    List (String × Nat) :=
  if m.any (fun p => p.1 = k) then
    m.map (fun p => if p.1 = k then (k, v) else p)
  else m ++ [(k, v)]

/-- Go map read `m[k]`. -/
def lookupEntry (m : List (String × Nat)) (k : String) : Option Nat :=
  (m.find? (fun p => p.1 = k)).map (fun p => p.2)

/-- Mutate the map object at reference `r`: `h.maps(r)[k] = v`. -/
def Heap.mapSet (h : Heap) (r : Nat) (k : String) (v : Nat) : Heap :=
  { h with maps := fun r2 => if r2 = r then setEntry (h.maps r) k v else h.maps r2 }

/-- The logger `config` struct of config.go.  Field names and order follow
the source; `slogHandler` is a handler reference, `contextKeys` a
map-reference into the `Heap`, `contextExtractor` an optional function
reference (`nil` = `none`). -/
structure config where
  slogHandler : Nat
  slowThreshold : Int
  ignoreRecordNotFoundError : Bool
  parameterizedQueries : Bool
  silent : Bool
  traceAll : Bool
  contextKeys : Nat
  contextExtractor : Option Nat
  groupKey : String
  errorKey : String
  slowThresholdKey : String
  queryKey : String
  durationKey : String
  rowsKey : String
  sourceKey : String
  fullSourcePath : Bool
  okMsg : String
  slowMsg : String
  errorMsg : String
deriving DecidableEq, Repr

/-- NewConfig of config.go: panics (`Except.error`) on a nil handler,
otherwise builds the default configuration, allocating the fresh empty
`contextKeys` map `map[string]any\x7b\x7d`. -/
def NewConfig (h : Option Nat) (heap : Heap) : Except String (config × Heap) :=
  match h with
  | none => .error "nil Handler"
  | some hr =>
    let (heap2, r) := heap.alloc []
    .ok
      ({ slogHandler := hr
         slowThreshold := 200 * millisecond
         ignoreRecordNotFoundError := false
         parameterizedQueries := false
         silent := false
         traceAll := false
         contextKeys := r
         contextExtractor := none
         groupKey := ""
         errorKey := "error"
         slowThresholdKey := "slow_threshold"
         queryKey := "query"
         durationKey := "duration"
         rowsKey := "rows"
         sourceKey := "file"
         fullSourcePath := false
         okMsg := "Query OK"
         slowMsg := "Query SLOW"
         errorMsg := "Query ERROR" }, heap2)

/-- clone of config.go: `nc := *c` copies every field by value (handler
reference shared), then `nc.contextKeys` is replaced by a freshly
allocated map filled by ranging over the original's entries. -/
def config.clone (c : config) (h : Heap) : config × Heap :=
  let copied := (h.maps c.contextKeys).foldl (fun acc p => setEntry acc p.1 p.2) []
  let (h2, r) := h.alloc copied
  ({ c with contextKeys := r }, h2)

/-- WithSlowThreshold of config.go. -/
def config.WithSlowThreshold (c : config) (v : Int) : config :=
  { c with slowThreshold := v }

/-- WithIgnoreRecordNotFoundError of config.go. -/
def config.WithIgnoreRecordNotFoundError (c : config) (v : Bool) : config :=
  { c with ignoreRecordNotFoundError := v }

/-- WithParameterizedQueries of config.go. -/
def config.WithParameterizedQueries (c : config) (v : Bool) : config :=
  { c with parameterizedQueries := v }

/-- WithSilent of config.go. -/
def config.WithSilent (c : config) (v : Bool) : config :=
  { c with silent := v }

/-- WithTraceAll of config.go. -/
def config.WithTraceAll (c : config) (v : Bool) : config :=
  { c with traceAll := v }

/-- WithContextKeys of config.go: stores the caller's map reference. -/
def config.WithContextKeys (c : config) (v : Nat) : config :=
  { c with contextKeys := v }

/-- WithContextExtractor of config.go: stores the function reference. -/
def config.WithContextExtractor (c : config) (v : Option Nat) : config :=
  { c with contextExtractor := v }

/-- WithGroupKey of config.go. -/
def config.WithGroupKey (c : config) (v : String) : config :=
  { c with groupKey := v }

/-- WithErrorKey of config.go. -/
def config.WithErrorKey (c : config) (v : String) : config :=
  { c with errorKey := v }

/-- WithSlowThresholdKey of config.go. -/
def config.WithSlowThresholdKey (c : config) (v : String) : config :=
  { c with slowThresholdKey := v }

/-- WithQueryKey of config.go. -/
def config.WithQueryKey (c : config) (v : String) : config :=
  { c with queryKey := v }

/-- WithDurationKey of config.go. -/
def config.WithDurationKey (c : config) (v : String) : config :=
  { c with durationKey := v }

/-- WithRowsKey of config.go. -/
def config.WithRowsKey (c : config) (v : String) : config :=
  { c with rowsKey := v }

/-- WithSourceKey of config.go. -/
def config.WithSourceKey (c : config) (v : String) : config :=
  { c with sourceKey := v }

/-- WithFullSourcePath of config.go. -/
def config.WithFullSourcePath (c : config) (v : Bool) : config :=
  { c with fullSourcePath := v }

/-- WithOkMsg of config.go. -/
def config.WithOkMsg (c : config) (v : String) : config :=
  { c with okMsg := v }

/-- WithSlowMsg of config.go. -/
def config.WithSlowMsg (c : config) (v : String) : config :=
  { c with slowMsg := v }

/-- WithErrorMsg of config.go. -/
def config.WithErrorMsg (c : config) (v : String) : config :=
  { c with errorMsg := v }

/-! Reified view of the configuration fields, used to state frame and
round-trip properties of the fluent With* setters uniformly. -/

/-- Enumeration of the fields of `config`. -/
inductive Field
  | slogHandler
  | slowThreshold
  | ignoreRecordNotFoundError
  | parameterizedQueries
  | silent
  | traceAll
  | contextKeys
  | contextExtractor
  | groupKey
  | errorKey
  | slowThresholdKey
  | queryKey
  | durationKey
  | rowsKey
  | sourceKey
  | fullSourcePath
  | okMsg
  | slowMsg
  | errorMsg
deriving DecidableEq, Repr

/-- Value of a configuration field: integer duration, boolean, string,
reference, or optional function reference. -/
inductive FieldVal
  | fInt (v : Int)
  | fBool (v : Bool)
  | fStr (v : String)
  | fRef (v : Nat)
  | fOptRef (v : Option Nat)
deriving DecidableEq, Repr

/-- Read one field of a configuration. -/
def config.getField (c : config) : Field → FieldVal
  | .slogHandler => .fRef c.slogHandler
  | .slowThreshold => .fInt c.slowThreshold
  | .ignoreRecordNotFoundError => .fBool c.ignoreRecordNotFoundError
  | .parameterizedQueries => .fBool c.parameterizedQueries
  | .silent => .fBool c.silent
  | .traceAll => .fBool c.traceAll
  | .contextKeys => .fRef c.contextKeys
  | .contextExtractor => .fOptRef c.contextExtractor
  | .groupKey => .fStr c.groupKey
  | .errorKey => .fStr c.errorKey
  | .slowThresholdKey => .fStr c.slowThresholdKey
  | .queryKey => .fStr c.queryKey
  | .durationKey => .fStr c.durationKey
  | .rowsKey => .fStr c.rowsKey
  | .sourceKey => .fStr c.sourceKey
  | .fullSourcePath => .fBool c.fullSourcePath
  | .okMsg => .fStr c.okMsg
  | .slowMsg => .fStr c.slowMsg
  | .errorMsg => .fStr c.errorMsg

/-- One With* setter call of config.go together with its argument. -/
inductive Setter
  | slowThreshold (v : Int)
  | ignoreRecordNotFoundError (v : Bool)
  | parameterizedQueries (v : Bool)
  | silent (v : Bool)
  | traceAll (v : Bool)
  | contextKeys (v : Nat)
  | contextExtractor (v : Option Nat)
  | groupKey (v : String)
  | errorKey (v : String)
  | slowThresholdKey (v : String)
  | queryKey (v : String)
  | durationKey (v : String)
  | rowsKey (v : String)
  | sourceKey (v : String)
  | fullSourcePath (v : Bool)
  | okMsg (v : String)
  | slowMsg (v : String)
  | errorMsg (v : String)
deriving DecidableEq, Repr

/-- Run one setter call (the corresponding With* function of
config.go). -/
def Setter.apply (c : config) : Setter → config
  | .slowThreshold v => c.WithSlowThreshold v
  | .ignoreRecordNotFoundError v => c.WithIgnoreRecordNotFoundError v
  | .parameterizedQueries v => c.WithParameterizedQueries v
  | .silent v => c.WithSilent v
  | .traceAll v => c.WithTraceAll v
  | .contextKeys v => c.WithContextKeys v
  | .contextExtractor v => c.WithContextExtractor v
  | .groupKey v => c.WithGroupKey v
  | .errorKey v => c.WithErrorKey v
  | .slowThresholdKey v => c.WithSlowThresholdKey v
  | .queryKey v => c.WithQueryKey v
  | .durationKey v => c.WithDurationKey v
  | .rowsKey v => c.WithRowsKey v
  | .sourceKey v => c.WithSourceKey v
  | .fullSourcePath v => c.WithFullSourcePath v
  | .okMsg v => c.WithOkMsg v
  | .slowMsg v => c.WithSlowMsg v
  | .errorMsg v => c.WithErrorMsg v

/-- The field a setter writes. -/
def Setter.target : Setter → Field
  | .slowThreshold _ => .slowThreshold
  | .ignoreRecordNotFoundError _ => .ignoreRecordNotFoundError
  | .parameterizedQueries _ => .parameterizedQueries
  | .silent _ => .silent
  | .traceAll _ => .traceAll
  | .contextKeys _ => .contextKeys
  | .contextExtractor _ => .contextExtractor
  | .groupKey _ => .groupKey
  | .errorKey _ => .errorKey
  | .slowThresholdKey _ => .slowThresholdKey
  | .queryKey _ => .queryKey
  | .durationKey _ => .durationKey
  | .rowsKey _ => .rowsKey
  | .sourceKey _ => .sourceKey
  | .fullSourcePath _ => .fullSourcePath
  | .okMsg _ => .okMsg
  | .slowMsg _ => .slowMsg
  | .errorMsg _ => .errorMsg

/-- The value a setter writes, as a `FieldVal`. -/
def Setter.value : Setter → FieldVal
  | .slowThreshold v => .fInt v
  | .ignoreRecordNotFoundError v => .fBool v
  | .parameterizedQueries v => .fBool v
  | .silent v => .fBool v
  | .traceAll v => .fBool v
  | .contextKeys v => .fRef v
  | .contextExtractor v => .fOptRef v
  | .groupKey v => .fStr v
  | .errorKey v => .fStr v
  | .slowThresholdKey v => .fStr v
  | .queryKey v => .fStr v
  | .durationKey v => .fStr v
  | .rowsKey v => .fStr v
  | .sourceKey v => .fStr v
  | .fullSourcePath v => .fBool v
  | .okMsg v => .fStr v
  | .slowMsg v => .fStr v
  | .errorMsg v => .fStr v

/-- Apply a finite sequence of setter calls left to right (fluent
chaining). -/
def applySetters (ss : List Setter) (c : config) : config :=
  ss.foldl Setter.apply c

/-- The value field `f` holds after running the sequence `ss` starting
from a configuration where it held `d`: the argument of the last setter
in `ss` targeting `f`, or `d` if none does. -/
def lastWrite (f : Field) (ss : List Setter) (d : FieldVal) : FieldVal :=
  ss.foldl (fun acc s => if s.target = f then s.value else acc) d

/-! The adapter (`logger`) itself lives in logger.go, which is not part of
the source tree here — only its tests are.  The definitions below are
therefore reconstructed from the specification's description of the four
logging operations, `LogMode` and `ParamsFilter`, and cross-checked
against the expectations in logger_test.go. -/

/-- Severity level of an emitted structured-log record. -/
inductive Level
  | info
  | warn
  | error
deriving DecidableEq, Repr

/-- Scalar attribute value: string, integer (row count), or
nanosecond duration. -/
inductive ScalarVal
  | vStr (s : String)
  | vInt (n : Int)
  | vDur (n : Int)
deriving DecidableEq, Repr

/-- Attribute value in a record: a scalar, or one named group of scalar
attributes (trace attributes nested under `groupKey`). -/
inductive AttrVal
  | scalar (v : ScalarVal)
  | group (g : List (String × ScalarVal))
deriving DecidableEq, Repr

/-- One structured-log record handed to the slog handler: severity,
message, and named attributes. -/
structure Record where
  level : Level
  message : String
  attrs : List (String × AttrVal)
deriving DecidableEq, Repr

/-- Does the record carry attribute `k` with scalar value `v`, either
top-level or inside a group? -/
def Record.hasAttr (r : Record) (k : String) (v : ScalarVal) : Bool :=
  r.attrs.any (fun p =>
    (p.1 = k && p.2 = AttrVal.scalar v) ||
    (match p.2 with
     | .group g => g.any (fun q => q.1 = k && q.2 = v)
     | .scalar _ => false))

/-- Go error supplied to Trace: the well-known "record not found"
sentinel (recognised by identity), or any other error carrying its
display text. -/
inductive GoError
  | recordNotFound
  | other (msg : String)
deriving DecidableEq, Repr

/-- Display text of an error (`err.Error()`). -/
def GoError.text : GoError → String
  | .recordNotFound => "record not found"
  | .other m => m

/-- Modelled from the spec: the ERROR-classification test of Trace
(logger.go, not under src/): the error is non-null and it is not the
case that it is the "not found" sentinel while
`ignoreRecordNotFoundError` is set. -/
def errActive (c : config) (err : Option GoError) : Bool :=
  match err with
  | none => false
  | some e => !(e = GoError.recordNotFound && c.ignoreRecordNotFoundError)

/-- Modelled from the spec: the trace-derived attributes attached to any
emitted trace record (logger.go, not under src/): the classification's
extra attribute (error or slow-threshold) followed by query text,
elapsed duration, row count and source location, each omitted when its
configured field name is empty. -/
def traceAttrs (c : config) (extra : List (String × ScalarVal))
    (sql : String) (elapsed rows : Int) (source : String) :
    List (String × ScalarVal) :=
  extra ++
  (if c.queryKey = "" then [] else [(c.queryKey, ScalarVal.vStr sql)]) ++
  (if c.durationKey = "" then [] else [(c.durationKey, ScalarVal.vDur elapsed)]) ++
  (if c.rowsKey = "" then [] else [(c.rowsKey, ScalarVal.vInt rows)]) ++
  (if c.sourceKey = "" then [] else [(c.sourceKey, ScalarVal.vStr source)])

/-- Modelled from the spec: assembly of an emitted record (logger.go, not
under src/): context-derived attributes are always top-level; the
trace-derived attributes are top-level when `groupKey` is empty and
otherwise nested as one group named `groupKey`. -/
def emitRecord (c : config) (lvl : Level) (msg : String)
    (tattrs ctxAttrs : List (String × ScalarVal)) : Record :=
  { level := lvl
    message := msg
    attrs :=
      ctxAttrs.map (fun p => (p.1, AttrVal.scalar p.2)) ++
      (if c.groupKey = "" then tattrs.map (fun p => (p.1, AttrVal.scalar p.2))
       else [(c.groupKey, AttrVal.group tattrs)]) }

/-- Modelled from the spec: the non-error tail of Trace's classification
(logger.go, not under src/): a positive `slowThreshold` not exceeding
elapsed emits a WARN record with the slow template and the threshold
attribute; else `traceAll` emits an INFO record with the ok template;
else nothing. -/
def traceNonError (c : config) (ctxAttrs : List (String × ScalarVal))
    (elapsed : Int) (sql : String) (rows : Int) (source : String) :
    Option Record :=
  if 0 < c.slowThreshold ∧ c.slowThreshold ≤ elapsed then
    let extra :=
      if c.slowThresholdKey = "" then []
      else [(c.slowThresholdKey, ScalarVal.vDur c.slowThreshold)]
    some (emitRecord c .warn c.slowMsg
      (traceAttrs c extra sql elapsed rows source) ctxAttrs)
  else if c.traceAll then
    some (emitRecord c .info c.okMsg
      (traceAttrs c [] sql elapsed rows source) ctxAttrs)
  else none

/-- Modelled from the spec: Trace of logger.go (not under src/).  Inputs
are the already-resolved context-derived attributes, the elapsed time in
nanoseconds, the accessor's (SQL text, row count), the computed source
location string, and the optional execution error.  First match wins:
silent emits nothing; an active error emits the ERROR record; otherwise
the slow/OK/nothing fall-through of `traceNonError` applies. -/
def Trace (c : config) (ctxAttrs : List (String × ScalarVal))
    (elapsed : Int) (sql : String) (rows : Int) (source : String)
    (err : Option GoError) : Option Record :=
  if c.silent then none
  else
    match err with
    | some e =>
      if !(e = GoError.recordNotFound && c.ignoreRecordNotFoundError) then
        let extra :=
          if c.errorKey = "" then []
          else [(c.errorKey, ScalarVal.vStr e.text)]
        some (emitRecord c .error c.errorMsg
          (traceAttrs c extra sql elapsed rows source) ctxAttrs)
      else traceNonError c ctxAttrs elapsed sql rows source
    | none => traceNonError c ctxAttrs elapsed sql rows source

/-- Modelled from the spec: printf-style message formatting used by the
passthrough operations (logger.go, not under src/), abstracted as an
uninterpreted combination of the template and its arguments. -/
def formatMsg (fmt : String) (args : List String) : String :=
  args.foldl (fun acc a => acc ++ a) fmt

/-- Modelled from the spec: the shared body of the passthrough logging
operations Info/Warn/Error of logger.go (not under src/): nothing when
silent, otherwise one record at the given severity with the formatted
message and the context-derived attributes. -/
def passthroughLog (c : config) (lvl : Level)
    (ctxAttrs : List (String × ScalarVal)) (fmt : String)
    (args : List String) : Option Record :=
  if c.silent then none
  else some
    { level := lvl
      message := formatMsg fmt args
      attrs := ctxAttrs.map (fun p => (p.1, AttrVal.scalar p.2)) }

/-- Modelled from the spec: Info of logger.go (not under src/). -/
def Info (c : config) (ctxAttrs : List (String × ScalarVal))
    (fmt : String) (args : List String) : Option Record :=
  passthroughLog c .info ctxAttrs fmt args

/-- Modelled from the spec: Warn of logger.go (not under src/). -/
def Warn (c : config) (ctxAttrs : List (String × ScalarVal))
    (fmt : String) (args : List String) : Option Record :=
  passthroughLog c .warn ctxAttrs fmt args

/-- Modelled from the spec: Error of logger.go (not under src/). -/
def ErrorLog (c : config) (ctxAttrs : List (String × ScalarVal))
    (fmt : String) (args : List String) : Option Record :=
  passthroughLog c .error ctxAttrs fmt args

/-- The adapter: a logger instance identity (Go pointer) together with
the configuration it wraps. -/
structure logger where
  id : Nat
  config : config
deriving DecidableEq, Repr

/-- GORM log levels (gorm.io/gorm/logger): Silent=1, Error=2, Warn=3,
Info=4. -/
def LogLevel.silentLvl : Int := 1

/-- GORM Error level. -/
def LogLevel.errorLvl : Int := 2

/-- GORM Warn level. -/
def LogLevel.warnLvl : Int := 3

/-- GORM Info level. -/
def LogLevel.infoLvl : Int := 4

/-- Modelled from the spec: LogMode of logger.go (not under src/).
Silent yields a new logger instance over a cloned configuration with
silent forced true and traceAll forced false; Info yields a new instance
over a cloned configuration with traceAll forced true and silent forced
false; every other level returns the same instance with the heap
untouched. -/
def LogMode (h : Heap) (l : logger) (level : Int) : Heap × logger :=
  if level = LogLevel.silentLvl then
    let (nc, h2) := l.config.clone h
    let (h3, lid) := h2.allocId
    (h3, { id := lid, config := (nc.WithSilent true).WithTraceAll false })
  else if level = LogLevel.infoLvl then
    let (nc, h2) := l.config.clone h
    let (h3, lid) := h2.allocId
    (h3, { id := lid, config := (nc.WithTraceAll true).WithSilent false })
  else (h, l)

/-- Modelled from the spec: ParamsFilter of logger.go (not under src/):
the SQL text is returned unchanged; the parameter list is dropped
(`nil`, here `none`) when `parameterizedQueries` is set and passed
through verbatim otherwise. -/
def ParamsFilter (c : config) (sql : String) (params : List ScalarVal) :
    String × Option (List ScalarVal) :=
  if c.parameterizedQueries then (sql, none) else (sql, some params)

/-! Helper lemmas about emitted records. -/

/-- A record carries `(k, v)` whenever it is a top-level scalar attribute
or sits inside some group. -/
theorem hasAttr_of_mem_attrs (r : Record) (k : String) (v : ScalarVal)
    (h : (k, AttrVal.scalar v) ∈ r.attrs ∨
      ∃ gk g, (gk, AttrVal.group g) ∈ r.attrs ∧ (k, v) ∈ g) :
    r.hasAttr k v = true := by
  unfold Record.hasAttr
  rw [List.any_eq_true]
  rcases h with h | ⟨gk, g, hg, hkv⟩
  · exact ⟨(k, AttrVal.scalar v), h, by simp⟩
  · refine ⟨(gk, AttrVal.group g), hg, ?_⟩
    have hany : (g.any fun q => q.1 = k && q.2 = v) = true := by
      rw [List.any_eq_true]
      exact ⟨(k, v), hkv, by simp⟩
    simp [hany]

/-- Any trace-derived attribute ends up findable in the emitted record,
grouped or not. -/
theorem emitRecord_hasAttr_of_mem (c : config) (lvl : Level) (msg : String)
    (tattrs ctxAttrs : List (String × ScalarVal)) (k : String)
    (v : ScalarVal) (hm : (k, v) ∈ tattrs) :
    (emitRecord c lvl msg tattrs ctxAttrs).hasAttr k v = true := by
  apply hasAttr_of_mem_attrs
  by_cases hg : c.groupKey = ""
  · left
    simp only [emitRecord, hg, if_pos]
    exact List.mem_append_right _
      (List.mem_map_of_mem (fun p => (p.1, AttrVal.scalar p.2)) hm)
  · right
    exact ⟨c.groupKey, tattrs, by simp [emitRecord, hg], hm⟩

/-- The classification's extra attribute is part of the trace-derived
attributes. -/
theorem mem_traceAttrs_of_extra (c : config)
    (extra : List (String × ScalarVal)) (sql : String)
    (elapsed rows : Int) (source : String) (q : String × ScalarVal)
    (hm : q ∈ extra) :
    q ∈ traceAttrs c extra sql elapsed rows source := by
  simp [traceAttrs, hm]

/-- The query attribute is attached whenever its name is non-empty. -/
theorem mem_traceAttrs_query (c : config)
    (extra : List (String × ScalarVal)) (sql : String)
    (elapsed rows : Int) (source : String) (hk : c.queryKey ≠ "") :
    (c.queryKey, ScalarVal.vStr sql) ∈
      traceAttrs c extra sql elapsed rows source := by
  simp [traceAttrs, hk]

/-- The duration attribute is attached whenever its name is
non-empty. -/
theorem mem_traceAttrs_duration (c : config)
    (extra : List (String × ScalarVal)) (sql : String)
    (elapsed rows : Int) (source : String) (hk : c.durationKey ≠ "") :
    (c.durationKey, ScalarVal.vDur elapsed) ∈
      traceAttrs c extra sql elapsed rows source := by
  simp [traceAttrs, hk]

/-- The rows attribute is attached whenever its name is non-empty. -/
theorem mem_traceAttrs_rows (c : config)
    (extra : List (String × ScalarVal)) (sql : String)
    (elapsed rows : Int) (source : String) (hk : c.rowsKey ≠ "") :
    (c.rowsKey, ScalarVal.vInt rows) ∈
      traceAttrs c extra sql elapsed rows source := by
  simp [traceAttrs, hk]

/-- The source attribute is attached whenever its name is non-empty. -/
theorem mem_traceAttrs_source (c : config)
    (extra : List (String × ScalarVal)) (sql : String)
    (elapsed rows : Int) (source : String) (hk : c.sourceKey ≠ "") :
    (c.sourceKey, ScalarVal.vStr source) ∈
      traceAttrs c extra sql elapsed rows source := by
  simp [traceAttrs, hk]

/-- Every trace-derived attribute is the classification's extra one or
carries one of the four always-computed names. -/
theorem mem_traceAttrs_key (c : config)
    (extra : List (String × ScalarVal)) (sql : String)
    (elapsed rows : Int) (source : String) (q : String × ScalarVal)
    (hq : q ∈ traceAttrs c extra sql elapsed rows source) :
    q ∈ extra ∨ q.1 = c.queryKey ∨ q.1 = c.durationKey ∨
      q.1 = c.rowsKey ∨ q.1 = c.sourceKey := by
  simp only [traceAttrs, List.mem_append] at hq
  rcases hq with (((hq | hq) | hq) | hq) | hq
  · exact Or.inl hq
  · refine Or.inr (Or.inl ?_)
    revert hq
    split <;> intro hq <;> simp_all
  · refine Or.inr (Or.inr (Or.inl ?_))
    revert hq
    split <;> intro hq <;> simp_all
  · refine Or.inr (Or.inr (Or.inr (Or.inl ?_)))
    revert hq
    split <;> intro hq <;> simp_all
  · refine Or.inr (Or.inr (Or.inr (Or.inr ?_)))
    revert hq
    split <;> intro hq <;> simp_all

/-- A record produced by the non-error tail is WARN or INFO. -/
theorem traceNonError_level (c : config)
    (ctxAttrs : List (String × ScalarVal)) (elapsed : Int) (sql : String)
    (rows : Int) (source : String) (rec : Record)
    (h : traceNonError c ctxAttrs elapsed sql rows source = some rec) :
    rec.level = .warn ∨ rec.level = .info := by
  unfold traceNonError at h
  split at h
  · cases h
    exact Or.inl rfl
  · split at h
    · cases h
      exact Or.inr rfl
    · cases h

/-- A non-silent Trace with no error is the non-error tail. -/
theorem trace_none_eq (c : config) (hs : c.silent = false)
    (ctxAttrs : List (String × ScalarVal)) (elapsed : Int) (sql : String)
    (rows : Int) (source : String) :
    Trace c ctxAttrs elapsed sql rows source none =
      traceNonError c ctxAttrs elapsed sql rows source := by
  simp [Trace, hs]

/-- Every record Trace emits is an `emitRecord` over trace-derived
attributes whose classification-specific part carries the error or
slow-threshold name. -/
theorem trace_emits_emitRecord (c : config)
    (ctxAttrs : List (String × ScalarVal)) (elapsed : Int) (sql : String)
    (rows : Int) (source : String) (err : Option GoError) (rec : Record)
    (hr : Trace c ctxAttrs elapsed sql rows source err = some rec) :
    ∃ lvl msg extra,
      rec = emitRecord c lvl msg
        (traceAttrs c extra sql elapsed rows source) ctxAttrs ∧
      (∀ q ∈ extra, q.1 = c.errorKey ∨ q.1 = c.slowThresholdKey) := by
  by_cases hsil : c.silent = true
  · simp [Trace, hsil] at hr
  · have hs : c.silent = false := by
      cases hcs : c.silent
      · rfl
      · exact absurd hcs hsil
    have fromTail : ∀ r : Record,
        traceNonError c ctxAttrs elapsed sql rows source = some r →
        ∃ lvl msg extra,
          r = emitRecord c lvl msg
            (traceAttrs c extra sql elapsed rows source) ctxAttrs ∧
          (∀ q ∈ extra, q.1 = c.errorKey ∨ q.1 = c.slowThresholdKey) := by
      intro r h
      unfold traceNonError at h
      split at h
      · cases h
        refine ⟨_, _, _, rfl, ?_⟩
        intro q hq
        revert hq
        split <;> intro hq <;> simp_all
      · split at h
        · cases h
          exact ⟨_, _, [], rfl, by simp⟩
        · cases h
    unfold Trace at hr
    rw [if_neg (by simp [hs])] at hr
    cases err with
    | none => exact fromTail rec hr
    | some e =>
      have hr2 : (if (!(e = GoError.recordNotFound &&
            c.ignoreRecordNotFoundError)) = true then
          some (emitRecord c Level.error c.errorMsg
            (traceAttrs c
              (if c.errorKey = "" then []
               else [(c.errorKey, ScalarVal.vStr e.text)])
              sql elapsed rows source) ctxAttrs)
        else traceNonError c ctxAttrs elapsed sql rows source) = some rec := hr
      by_cases hact : (!(e = GoError.recordNotFound &&
          c.ignoreRecordNotFoundError)) = true
      · rw [if_pos hact] at hr2
        cases hr2
        refine ⟨_, _, _, rfl, ?_⟩
        intro q hq
        revert hq
        split <;> intro hq <;> simp_all
      · rw [if_neg hact] at hr2
        exact fromTail rec hr2

/-! Sample values used by the witness theorems. -/

/-- Empty heap. -/
def emptyHeap : Heap := { maps := fun _ => [], next := 0 }

/-- A concrete configuration (the defaults of NewConfig with handler
reference 0 and context-keys reference 0). -/
def sampleCfg : config :=
  { slogHandler := 0
    slowThreshold := 200 * millisecond
    ignoreRecordNotFoundError := false
    parameterizedQueries := false
    silent := false
    traceAll := false
    contextKeys := 0
    contextExtractor := none
    groupKey := ""
    errorKey := "error"
    slowThresholdKey := "slow_threshold"
    queryKey := "query"
    durationKey := "duration"
    rowsKey := "rows"
    sourceKey := "file"
    fullSourcePath := false
    okMsg := "Query OK"
    slowMsg := "Query SLOW"
    errorMsg := "Query ERROR" }

/-! Helper lemmas. -/

/-- A setter writes exactly its target field with its argument and reads
back every other field unchanged. -/
theorem getField_apply (c : config) (s : Setter) (f : Field) :
    (s.apply c).getField f =
      if s.target = f then s.value else c.getField f := by
  cases s <;> cases f <;>
    simp [Setter.apply, Setter.target, Setter.value, config.getField,
      config.WithSlowThreshold, config.WithIgnoreRecordNotFoundError,
      config.WithParameterizedQueries, config.WithSilent,
      config.WithTraceAll, config.WithContextKeys,
      config.WithContextExtractor, config.WithGroupKey,
      config.WithErrorKey, config.WithSlowThresholdKey,
      config.WithQueryKey, config.WithDurationKey, config.WithRowsKey,
      config.WithSourceKey, config.WithFullSourcePath, config.WithOkMsg,
      config.WithSlowMsg, config.WithErrorMsg]

/-- C9 helper: reading a field after a setter sequence yields the last
value written to it, or the starting value if the sequence never writes
it. -/
theorem applySetters_getField (ss : List Setter) (c : config) (f : Field) :
    (applySetters ss c).getField f = lastWrite f ss (c.getField f) := by
  induction ss generalizing c with
  | nil => rfl
  | cons s ss ih =>
    show (applySetters ss (s.apply c)).getField f =
      lastWrite f ss (if s.target = f then s.value else c.getField f)
    rw [ih, getField_apply]

/-- C9: starting from any configuration, a finite sequence of With*
setter calls reads back, per field, the last value applied (or the
starting value if never set); setters replace their field
unconditionally, and setters targeting distinct fields commute. -/
theorem config_setters_last_write_wins_and_commute :
    (∀ (c : config) (ss : List Setter) (f : Field),
        (applySetters ss c).getField f = lastWrite f ss (c.getField f)) ∧
    (∀ (c : config) (s1 s2 : Setter), s1.target ≠ s2.target →
        Setter.apply (Setter.apply c s1) s2 =
          Setter.apply (Setter.apply c s2) s1) := by
  constructor
  · intro c ss f
    exact applySetters_getField ss c f
  · intro c s1 s2 h
    cases s1 <;> cases s2 <;> first
      | exact absurd rfl h
      | rfl

/-- C9 witness: a concrete three-setter chain, read back per field, and
a concrete pair of distinct-field setters, commuted. -/
theorem config_setters_last_write_wins_and_commute_witness :
    ((applySetters
        [Setter.silent true, Setter.okMsg "a", Setter.silent false]
        sampleCfg).getField .silent =
      lastWrite .silent
        [Setter.silent true, Setter.okMsg "a", Setter.silent false]
        (sampleCfg.getField .silent)) ∧
    (Setter.apply (Setter.apply sampleCfg (.silent true)) (.traceAll true) =
      Setter.apply (Setter.apply sampleCfg (.traceAll true)) (.silent true)) :=
  ⟨config_setters_last_write_wins_and_commute.1 sampleCfg
      [Setter.silent true, Setter.okMsg "a", Setter.silent false] .silent,
    config_setters_last_write_wins_and_commute.2 sampleCfg
      (.silent true) (.traceAll true) (by decide)⟩

/-- C10: every With* setter writes its own field with its argument and
leaves every other field of the configuration — handler reference,
message templates, context-keys reference, flags and attribute names —
unchanged. -/
theorem config_setters_frame (c : config) (s : Setter) :
    (s.apply c).getField s.target = s.value ∧
    (∀ f : Field, f ≠ s.target → (s.apply c).getField f = c.getField f) := by
  constructor
  · rw [getField_apply]
    simp
  · intro f hf
    rw [getField_apply, if_neg (fun h => hf h.symm)]

/-- C6: ParamsFilter always returns the SQL text unchanged; the
parameter list is dropped exactly when `parameterizedQueries` is set and
otherwise passed through verbatim. -/
theorem paramsFilter_sql_unchanged (c : config) (sql : String)
    (params : List ScalarVal) :
    ParamsFilter c sql params =
      (sql, if c.parameterizedQueries then none else some params) := by
  unfold ParamsFilter
  split <;> simp_all

/-- C7: constructing a configuration with a nil handler panics
immediately with "nil Handler"; any non-nil handler succeeds, whatever
the heap. -/
theorem newConfig_nil_handler_only_fatal :
    (∀ heap : Heap, NewConfig none heap = Except.error "nil Handler") ∧
    (∀ (hr : Nat) (heap : Heap), ∃ res, NewConfig (some hr) heap = Except.ok res) :=
  ⟨fun _ => rfl, fun _ _ => ⟨_, rfl⟩⟩

/-- Helper for C8: inserting entries whose keys avoid the accumulator's
keys and are pairwise distinct just appends them. -/
theorem foldl_setEntry_append (m : List (String × Nat)) :
    ∀ acc : List (String × Nat),
      List.Pairwise (fun p q => p.1 ≠ q.1) m →
      (∀ p ∈ m, ∀ q ∈ acc, q.1 ≠ p.1) →
      m.foldl (fun a p => setEntry a p.1 p.2) acc = acc ++ m := by
  induction m with
  | nil => intro acc _ _; simp
  | cons p m ih =>
    intro acc hd hsep
    have hnot : ¬ (acc.any (fun q => q.1 = p.1) = true) := by
      simp only [List.any_eq_true, not_exists]
      intro q
      rintro ⟨hq, hq1⟩
      exact hsep p (by simp) q hq (by simpa using hq1)
    simp only [List.foldl_cons]
    rw [setEntry, if_neg hnot,
      ih (acc ++ [(p.1, p.2)]) hd.tail ?_]
    · simp
    · intro r hr q hq
      rcases List.mem_append.mp hq with hq | hq
      · exact hsep r (by simp [hr]) q hq
      · have : q = (p.1, p.2) := by simpa using hq
        subst this
        exact (List.pairwise_cons.mp hd).1 r hr

/-- C8: clone yields a configuration with a fresh context-keys map
reference, equal scalar fields, a shared handler reference, and — when
the original map's keys are distinct — identical map contents; writes
through either reference never reach the other. -/
theorem config_clone_deep_copy (c : config) (h : Heap)
    (hv : c.contextKeys < h.next) :
    ((c.clone h).1.contextKeys ≠ c.contextKeys) ∧
    ((c.clone h).1.slogHandler = c.slogHandler) ∧
    (∀ f : Field, f ≠ Field.contextKeys →
      (c.clone h).1.getField f = c.getField f) ∧
    ((c.clone h).2.maps c.contextKeys = h.maps c.contextKeys) ∧
    (∀ k v,
      ((c.clone h).2.mapSet (c.clone h).1.contextKeys k v).maps c.contextKeys
        = (c.clone h).2.maps c.contextKeys) ∧
    (∀ k v,
      ((c.clone h).2.mapSet c.contextKeys k v).maps (c.clone h).1.contextKeys
        = (c.clone h).2.maps (c.clone h).1.contextKeys) ∧
    (List.Pairwise (fun p q => p.1 ≠ q.1) (h.maps c.contextKeys) →
      (c.clone h).2.maps (c.clone h).1.contextKeys = h.maps c.contextKeys) := by
  have hne : c.contextKeys ≠ h.next := Nat.ne_of_lt hv
  refine ⟨?_, rfl, ?_, ?_, ?_, ?_, ?_⟩
  · simpa [config.clone, Heap.alloc] using fun e => hne e.symm
  · intro f hf
    cases f <;> first
      | exact absurd rfl hf
      | rfl
  · simp [config.clone, Heap.alloc, hne, hne.symm]
  · intro k v
    simp [config.clone, Heap.alloc, Heap.mapSet, hne, hne.symm]
  · intro k v
    simp [config.clone, Heap.alloc, Heap.mapSet, hne, hne.symm]
  · intro hd
    have := foldl_setEntry_append (h.maps c.contextKeys) [] hd
      (by intro p _ q hq; simp at hq)
    simp only [List.nil_append] at this
    simpa [config.clone, Heap.alloc] using this

/-- A concrete heap with one allocated map (reference 0, one entry). -/
def sampleHeap : Heap :=
  { maps := fun r => if r = 0 then [("req_id", 7)] else [], next := 1 }

/-- C8 witness: cloning the sample configuration over the sample heap
gives a fresh map reference, a write through it leaves the original map
alone, and the copied contents coincide with the original's. -/
theorem config_clone_deep_copy_witness :
    ((sampleCfg.clone sampleHeap).1.contextKeys ≠ sampleCfg.contextKeys) ∧
    (((sampleCfg.clone sampleHeap).2.mapSet
        (sampleCfg.clone sampleHeap).1.contextKeys "k" 5).maps
        sampleCfg.contextKeys
      = (sampleCfg.clone sampleHeap).2.maps sampleCfg.contextKeys) ∧
    ((sampleCfg.clone sampleHeap).2.maps
        (sampleCfg.clone sampleHeap).1.contextKeys
      = sampleHeap.maps sampleCfg.contextKeys) :=
  ⟨(config_clone_deep_copy sampleCfg sampleHeap (by decide)).1,
   (config_clone_deep_copy sampleCfg sampleHeap (by decide)).2.2.2.2.1 "k" 5,
   (config_clone_deep_copy sampleCfg sampleHeap (by decide)).2.2.2.2.2.2
     (by simp [sampleHeap, sampleCfg])⟩

/-- C4: LogMode at the Silent level returns a new logger instance over a
cloned configuration with silent forced true and traceAll forced false;
at the Info level a new instance with traceAll forced true and silent
forced false; at Warn, Error or any other level the very same instance
with the heap untouched; in the first two cases the original's map
object is untouched and the clone's map reference is fresh. -/
theorem logMode_behavior (h : Heap) (l : logger)
    (hid : l.id < h.next) (hck : l.config.contextKeys < h.next) :
    ((LogMode h l LogLevel.silentLvl).2.id ≠ l.id ∧
      (LogMode h l LogLevel.silentLvl).2.config.silent = true ∧
      (LogMode h l LogLevel.silentLvl).2.config.traceAll = false ∧
      (LogMode h l LogLevel.silentLvl).2.config.contextKeys ≠
        l.config.contextKeys ∧
      (∀ f : Field, f ≠ .silent → f ≠ .traceAll → f ≠ .contextKeys →
        (LogMode h l LogLevel.silentLvl).2.config.getField f =
          l.config.getField f) ∧
      (LogMode h l LogLevel.silentLvl).1.maps l.config.contextKeys =
        h.maps l.config.contextKeys) ∧
    ((LogMode h l LogLevel.infoLvl).2.id ≠ l.id ∧
      (LogMode h l LogLevel.infoLvl).2.config.silent = false ∧
      (LogMode h l LogLevel.infoLvl).2.config.traceAll = true ∧
      (LogMode h l LogLevel.infoLvl).2.config.contextKeys ≠
        l.config.contextKeys ∧
      (∀ f : Field, f ≠ .silent → f ≠ .traceAll → f ≠ .contextKeys →
        (LogMode h l LogLevel.infoLvl).2.config.getField f =
          l.config.getField f) ∧
      (LogMode h l LogLevel.infoLvl).1.maps l.config.contextKeys =
        h.maps l.config.contextKeys) ∧
    (∀ lvl : Int, lvl ≠ LogLevel.silentLvl → lvl ≠ LogLevel.infoLvl →
      LogMode h l lvl = (h, l)) := by
  have hckne : l.config.contextKeys ≠ h.next := Nat.ne_of_lt hck
  have hidne : l.id ≠ h.next + 1 := by omega
  refine ⟨⟨?_, rfl, rfl, ?_, ?_, ?_⟩, ⟨?_, rfl, rfl, ?_, ?_, ?_⟩, ?_⟩
  · simpa [LogMode, config.clone, Heap.alloc, Heap.allocId,
      config.WithSilent, config.WithTraceAll, LogLevel.silentLvl]
      using fun e => hidne e.symm
  · simpa [LogMode, config.clone, Heap.alloc, Heap.allocId,
      config.WithSilent, config.WithTraceAll, LogLevel.silentLvl]
      using fun e => hckne e.symm
  · intro f hf1 hf2 hf3
    cases f <;> first
      | exact absurd rfl hf1
      | exact absurd rfl hf2
      | exact absurd rfl hf3
      | rfl
  · simp [LogMode, config.clone, Heap.alloc, Heap.allocId,
      LogLevel.silentLvl, hckne, hckne.symm]
  · simpa [LogMode, config.clone, Heap.alloc, Heap.allocId,
      config.WithSilent, config.WithTraceAll, LogLevel.infoLvl,
      LogLevel.silentLvl]
      using fun e => hidne e.symm
  · simpa [LogMode, config.clone, Heap.alloc, Heap.allocId,
      config.WithSilent, config.WithTraceAll, LogLevel.infoLvl,
      LogLevel.silentLvl]
      using fun e => hckne e.symm
  · intro f hf1 hf2 hf3
    cases f <;> first
      | exact absurd rfl hf1
      | exact absurd rfl hf2
      | exact absurd rfl hf3
      | rfl
  · simp [LogMode, config.clone, Heap.alloc, Heap.allocId,
      LogLevel.infoLvl, LogLevel.silentLvl, hckne, hckne.symm]
  · intro lvl h1 h2
    simp [LogMode, h1, h2]

/-- C4 witness: an adapter with identity 1 over the sample configuration
and a two-object heap, run through the Silent, Info and Warn modes. -/
theorem logMode_behavior_witness :
    ((LogMode { maps := fun _ => [], next := 2 }
        { id := 1, config := sampleCfg } LogLevel.silentLvl).2.config.silent
      = true) ∧
    ((LogMode { maps := fun _ => [], next := 2 }
        { id := 1, config := sampleCfg } LogLevel.infoLvl).2.config.traceAll
      = true) ∧
    (LogMode { maps := fun _ => [], next := 2 }
        { id := 1, config := sampleCfg } LogLevel.warnLvl
      = ({ maps := fun _ => [], next := 2 }, { id := 1, config := sampleCfg })) :=
  ⟨(logMode_behavior { maps := fun _ => [], next := 2 }
      { id := 1, config := sampleCfg } (by decide) (by decide)).1.2.1,
   (logMode_behavior { maps := fun _ => [], next := 2 }
      { id := 1, config := sampleCfg } (by decide) (by decide)).2.1.2.2.1,
   (logMode_behavior { maps := fun _ => [], next := 2 }
      { id := 1, config := sampleCfg } (by decide) (by decide)).2.2
     LogLevel.warnLvl (by decide) (by decide)⟩

/-- C1: for every non-silent configuration, Trace emits an
ERROR-severity record with the configured error template — carrying the
error's display text under the error attribute unless that name is empty
— exactly when the supplied error is non-null and not the ignored
"record not found" sentinel; this holds for every elapsed time, every
traceAll flag and every slowThreshold. -/
theorem trace_error_emission_iff (c : config) (hs : c.silent = false)
    (ctxAttrs : List (String × ScalarVal)) (elapsed : Int) (sql : String)
    (rows : Int) (source : String) (err : Option GoError) :
    (errActive c err = true →
      ∃ e rec, err = some e ∧
        Trace c ctxAttrs elapsed sql rows source err = some rec ∧
        rec.level = .error ∧ rec.message = c.errorMsg ∧
        (c.errorKey ≠ "" → rec.hasAttr c.errorKey (.vStr e.text) = true)) ∧
    (errActive c err = false →
      ∀ rec, Trace c ctxAttrs elapsed sql rows source err = some rec →
        rec.level ≠ .error) := by
  constructor
  · intro ha
    cases err with
    | none => simp [errActive] at ha
    | some e =>
      have hact : (!(decide (e = GoError.recordNotFound) &&
          c.ignoreRecordNotFoundError)) = true := ha
      have hT : Trace c ctxAttrs elapsed sql rows source (some e) =
          some (emitRecord c Level.error c.errorMsg
            (traceAttrs c
              (if c.errorKey = "" then []
               else [(c.errorKey, ScalarVal.vStr e.text)])
              sql elapsed rows source) ctxAttrs) := by
        unfold Trace
        rw [if_neg (by simp [hs])]
        show (if (!(decide (e = GoError.recordNotFound) &&
            c.ignoreRecordNotFoundError)) = true then
            some (emitRecord c Level.error c.errorMsg
              (traceAttrs c
                (if c.errorKey = "" then []
                 else [(c.errorKey, ScalarVal.vStr e.text)])
                sql elapsed rows source) ctxAttrs)
          else traceNonError c ctxAttrs elapsed sql rows source) = _
        rw [if_pos hact]
      refine ⟨e, _, rfl, hT, rfl, rfl, ?_⟩
      intro hk
      apply emitRecord_hasAttr_of_mem
      apply mem_traceAttrs_of_extra
      simp [hk]
  · intro ha rec hr
    have tail : traceNonError c ctxAttrs elapsed sql rows source = some rec →
        rec.level ≠ .error := by
      intro h
      rcases traceNonError_level c ctxAttrs elapsed sql rows source rec h with
        hl | hl <;> simp [hl]
    cases err with
    | none =>
      rw [trace_none_eq c hs] at hr
      exact tail hr
    | some e =>
      have ha' : (!(decide (e = GoError.recordNotFound) &&
          c.ignoreRecordNotFoundError)) = false := ha
      have hr2 : (if (!(decide (e = GoError.recordNotFound) &&
            c.ignoreRecordNotFoundError)) = true then
          some (emitRecord c Level.error c.errorMsg
            (traceAttrs c
              (if c.errorKey = "" then []
               else [(c.errorKey, ScalarVal.vStr e.text)])
              sql elapsed rows source) ctxAttrs)
        else traceNonError c ctxAttrs elapsed sql rows source) = some rec := by
        have := hr
        unfold Trace at this
        rw [if_neg (by simp [hs])] at this
        exact this
      rw [if_neg (by simp [ha'])] at hr2
      exact tail hr2

/-- C1 witness: the default configuration with a generic error emits the
ERROR record, at a fast elapsed time and with traceAll off. -/
theorem trace_error_emission_iff_witness :
    ∃ e rec, (some (GoError.other "connection error") : Option GoError) = some e ∧
      Trace sampleCfg [] 1000000 "SELECT * FROM users" 69 "logger_test.go:250"
        (some (GoError.other "connection error")) = some rec ∧
      rec.level = .error ∧ rec.message = sampleCfg.errorMsg ∧
      (sampleCfg.errorKey ≠ "" →
        rec.hasAttr sampleCfg.errorKey (.vStr e.text) = true) :=
  (trace_error_emission_iff sampleCfg rfl [] 1000000 "SELECT * FROM users" 69
    "logger_test.go:250" (some (GoError.other "connection error"))).1
    (by decide)

/-- C2: with silent set, none of Info, Warn, Error or Trace emits a
record, whatever the error, elapsed time, traceAll flag or message
arguments. -/
theorem silent_suppresses_all (c : config) (hsil : c.silent = true)
    (ctxAttrs : List (String × ScalarVal)) (fmt : String)
    (args : List String) (elapsed : Int) (sql : String) (rows : Int)
    (source : String) (err : Option GoError) :
    Info c ctxAttrs fmt args = none ∧
    Warn c ctxAttrs fmt args = none ∧
    ErrorLog c ctxAttrs fmt args = none ∧
    Trace c ctxAttrs elapsed sql rows source err = none := by
  refine ⟨?_, ?_, ?_, ?_⟩ <;>
    simp [Info, Warn, ErrorLog, passthroughLog, Trace, hsil]

/-- C2 witness: the default configuration switched to silent drops an
Info call and an erroring Trace call. -/
theorem silent_suppresses_all_witness :
    Info (sampleCfg.WithSilent true) [] "info msg" ["x"] = none ∧
    Warn (sampleCfg.WithSilent true) [] "info msg" ["x"] = none ∧
    ErrorLog (sampleCfg.WithSilent true) [] "info msg" ["x"] = none ∧
    Trace (sampleCfg.WithSilent true) [] 1000000000 "q" 0 "f:1"
      (some (GoError.other "boom")) = none :=
  silent_suppresses_all (sampleCfg.WithSilent true) rfl [] "info msg" ["x"]
    1000000000 "q" 0 "f:1" (some (GoError.other "boom"))

/-- C3: for a non-silent configuration whose error is null or the
ignored sentinel, Trace behaves exactly as with no error at all: a
positive threshold not exceeding elapsed yields one WARN record with the
slow template and the threshold attribute; otherwise traceAll yields one
INFO record with the ok template; otherwise nothing. -/
theorem trace_ignored_error_fallthrough (c : config) (hs : c.silent = false)
    (ctxAttrs : List (String × ScalarVal)) (elapsed : Int) (sql : String)
    (rows : Int) (source : String) (err : Option GoError)
    (he : err = none ∨ (err = some GoError.recordNotFound ∧
      c.ignoreRecordNotFoundError = true)) :
    (Trace c ctxAttrs elapsed sql rows source err =
      Trace c ctxAttrs elapsed sql rows source none) ∧
    (0 < c.slowThreshold ∧ c.slowThreshold ≤ elapsed →
      ∃ rec, Trace c ctxAttrs elapsed sql rows source err = some rec ∧
        rec.level = .warn ∧ rec.message = c.slowMsg ∧
        (c.slowThresholdKey ≠ "" →
          rec.hasAttr c.slowThresholdKey (.vDur c.slowThreshold) = true)) ∧
    (¬(0 < c.slowThreshold ∧ c.slowThreshold ≤ elapsed) →
      c.traceAll = true →
      ∃ rec, Trace c ctxAttrs elapsed sql rows source err = some rec ∧
        rec.level = .info ∧ rec.message = c.okMsg) ∧
    (¬(0 < c.slowThreshold ∧ c.slowThreshold ≤ elapsed) →
      c.traceAll = false →
      Trace c ctxAttrs elapsed sql rows source err = none) := by
  have heq : Trace c ctxAttrs elapsed sql rows source err =
      traceNonError c ctxAttrs elapsed sql rows source := by
    rcases he with rfl | ⟨rfl, hig⟩
    · exact trace_none_eq c hs ctxAttrs elapsed sql rows source
    · simp [Trace, hs, hig]
  refine ⟨?_, ?_, ?_, ?_⟩
  · rw [heq, trace_none_eq c hs]
  · intro hslow
    rw [heq]
    have hT : traceNonError c ctxAttrs elapsed sql rows source =
        some (emitRecord c Level.warn c.slowMsg
          (traceAttrs c
            (if c.slowThresholdKey = "" then []
             else [(c.slowThresholdKey, ScalarVal.vDur c.slowThreshold)])
            sql elapsed rows source) ctxAttrs) := by
      unfold traceNonError
      rw [if_pos hslow]
    refine ⟨_, hT, rfl, rfl, ?_⟩
    intro hk
    apply emitRecord_hasAttr_of_mem
    apply mem_traceAttrs_of_extra
    simp [hk]
  · intro hns hta
    rw [heq]
    have hT : traceNonError c ctxAttrs elapsed sql rows source =
        some (emitRecord c Level.info c.okMsg
          (traceAttrs c [] sql elapsed rows source) ctxAttrs) := by
      unfold traceNonError
      rw [if_neg hns, if_pos hta]
    exact ⟨_, hT, rfl, rfl⟩
  · intro hns hta
    rw [heq]
    unfold traceNonError
    rw [if_neg hns, if_neg (by simp [hta])]

/-- C3 witness: the default configuration with the sentinel error,
ignoreRecordNotFoundError set and a slow elapsed time: the output equals
the no-error output and is the WARN slow record. -/
theorem trace_ignored_error_fallthrough_witness :
    (Trace (sampleCfg.WithIgnoreRecordNotFoundError true) [] 1000000000 "q"
        0 "f:1" (some GoError.recordNotFound) =
      Trace (sampleCfg.WithIgnoreRecordNotFoundError true) [] 1000000000 "q"
        0 "f:1" none) ∧
    (∃ rec, Trace (sampleCfg.WithIgnoreRecordNotFoundError true) [] 1000000000
        "q" 0 "f:1" (some GoError.recordNotFound) = some rec ∧
      rec.level = .warn ∧
      rec.message = (sampleCfg.WithIgnoreRecordNotFoundError true).slowMsg ∧
      ((sampleCfg.WithIgnoreRecordNotFoundError true).slowThresholdKey ≠ "" →
        rec.hasAttr (sampleCfg.WithIgnoreRecordNotFoundError true).slowThresholdKey
          (.vDur (sampleCfg.WithIgnoreRecordNotFoundError true).slowThreshold)
          = true)) :=
  ⟨(trace_ignored_error_fallthrough (sampleCfg.WithIgnoreRecordNotFoundError true)
      rfl [] 1000000000 "q" 0 "f:1" (some GoError.recordNotFound)
      (Or.inr ⟨rfl, rfl⟩)).1,
   (trace_ignored_error_fallthrough (sampleCfg.WithIgnoreRecordNotFoundError true)
      rfl [] 1000000000 "q" 0 "f:1" (some GoError.recordNotFound)
      (Or.inr ⟨rfl, rfl⟩)).2.1 (by decide)⟩

/-- C5: when groupKey is non-empty, every record Trace emits consists of
the context-derived attributes top-level plus one single group named
groupKey holding only trace-derived attributes (error, slow-threshold,
query, duration, rows, source names), with the four always-computed ones
present whenever their names are non-empty; when groupKey is empty no
attribute of the record is a group. -/
theorem trace_group_nesting (c : config)
    (ctxAttrs : List (String × ScalarVal)) (elapsed : Int) (sql : String)
    (rows : Int) (source : String) (err : Option GoError) (rec : Record)
    (hr : Trace c ctxAttrs elapsed sql rows source err = some rec) :
    (c.groupKey ≠ "" →
      ∃ g, rec.attrs =
          ctxAttrs.map (fun p => (p.1, AttrVal.scalar p.2)) ++
            [(c.groupKey, AttrVal.group g)] ∧
        (∀ q ∈ g, q.1 = c.errorKey ∨ q.1 = c.slowThresholdKey ∨
          q.1 = c.queryKey ∨ q.1 = c.durationKey ∨ q.1 = c.rowsKey ∨
          q.1 = c.sourceKey) ∧
        (c.queryKey ≠ "" → (c.queryKey, ScalarVal.vStr sql) ∈ g) ∧
        (c.durationKey ≠ "" → (c.durationKey, ScalarVal.vDur elapsed) ∈ g) ∧
        (c.rowsKey ≠ "" → (c.rowsKey, ScalarVal.vInt rows) ∈ g) ∧
        (c.sourceKey ≠ "" → (c.sourceKey, ScalarVal.vStr source) ∈ g)) ∧
    (c.groupKey = "" →
      ∀ p ∈ rec.attrs, ∃ v, p.2 = AttrVal.scalar v) := by
  obtain ⟨lvl, msg, extra, hrec, hextra⟩ :=
    trace_emits_emitRecord c ctxAttrs elapsed sql rows source err rec hr
  subst hrec
  constructor
  · intro hg
    refine ⟨traceAttrs c extra sql elapsed rows source,
      by simp [emitRecord, hg], ?_,
      fun hk => mem_traceAttrs_query c extra sql elapsed rows source hk,
      fun hk => mem_traceAttrs_duration c extra sql elapsed rows source hk,
      fun hk => mem_traceAttrs_rows c extra sql elapsed rows source hk,
      fun hk => mem_traceAttrs_source c extra sql elapsed rows source hk⟩
    intro q hq
    rcases mem_traceAttrs_key c extra sql elapsed rows source q hq with
      hq | hq | hq | hq | hq
    · rcases hextra q hq with h | h
      · exact Or.inl h
      · exact Or.inr (Or.inl h)
    · exact Or.inr (Or.inr (Or.inl hq))
    · exact Or.inr (Or.inr (Or.inr (Or.inl hq)))
    · exact Or.inr (Or.inr (Or.inr (Or.inr (Or.inl hq))))
    · exact Or.inr (Or.inr (Or.inr (Or.inr (Or.inr hq))))
  · intro hg p hp
    simp only [emitRecord, hg, if_pos, List.mem_append] at hp
    rcases hp with hp | hp
    · obtain ⟨q, _, rfl⟩ := List.mem_map.mp hp
      exact ⟨q.2, rfl⟩
    · obtain ⟨q, _, rfl⟩ := List.mem_map.mp hp
      exact ⟨q.2, rfl⟩

/-- C5 witness: a grouped traceAll configuration on a fast query nests
the trace attributes under "db" and keeps the context attribute
top-level. -/
theorem trace_group_nesting_witness :
    ∃ g, (Record.mk .info "Query OK"
        [("req_id", .scalar (.vStr "1")),
         ("db", .group [("query", .vStr "q"), ("duration", .vDur 10000000),
                        ("rows", .vInt 0), ("file", .vStr "f:1")])]).attrs =
      ([("req_id", ScalarVal.vStr "1")].map
        (fun p => (p.1, AttrVal.scalar p.2))) ++
        [(((sampleCfg.WithTraceAll true).WithGroupKey "db").groupKey,
          AttrVal.group g)] ∧
      (∀ q ∈ g,
        q.1 = ((sampleCfg.WithTraceAll true).WithGroupKey "db").errorKey ∨
        q.1 = ((sampleCfg.WithTraceAll true).WithGroupKey "db").slowThresholdKey ∨
        q.1 = ((sampleCfg.WithTraceAll true).WithGroupKey "db").queryKey ∨
        q.1 = ((sampleCfg.WithTraceAll true).WithGroupKey "db").durationKey ∨
        q.1 = ((sampleCfg.WithTraceAll true).WithGroupKey "db").rowsKey ∨
        q.1 = ((sampleCfg.WithTraceAll true).WithGroupKey "db").sourceKey) ∧
      (((sampleCfg.WithTraceAll true).WithGroupKey "db").queryKey ≠ "" →
        (((sampleCfg.WithTraceAll true).WithGroupKey "db").queryKey,
          ScalarVal.vStr "q") ∈ g) ∧
      (((sampleCfg.WithTraceAll true).WithGroupKey "db").durationKey ≠ "" →
        (((sampleCfg.WithTraceAll true).WithGroupKey "db").durationKey,
          ScalarVal.vDur 10000000) ∈ g) ∧
      (((sampleCfg.WithTraceAll true).WithGroupKey "db").rowsKey ≠ "" →
        (((sampleCfg.WithTraceAll true).WithGroupKey "db").rowsKey,
          ScalarVal.vInt 0) ∈ g) ∧
      (((sampleCfg.WithTraceAll true).WithGroupKey "db").sourceKey ≠ "" →
        (((sampleCfg.WithTraceAll true).WithGroupKey "db").sourceKey,
          ScalarVal.vStr "f:1") ∈ g) :=
  (trace_group_nesting ((sampleCfg.WithTraceAll true).WithGroupKey "db")
    [("req_id", ScalarVal.vStr "1")] 10000000 "q" 0 "f:1" none
    (Record.mk .info "Query OK"
      [("req_id", .scalar (.vStr "1")),
       ("db", .group [("query", .vStr "q"), ("duration", .vDur 10000000),
                      ("rows", .vInt 0), ("file", .vStr "f:1")])])
    (by decide)).1 (by decide)

/-- C10 witness: the okMsg setter on the sample configuration writes
okMsg and leaves the silent flag alone. -/
theorem config_setters_frame_witness :
    ((Setter.okMsg "x").apply sampleCfg).getField (Setter.okMsg "x").target =
        (Setter.okMsg "x").value ∧
      ((Setter.okMsg "x").apply sampleCfg).getField .silent =
        sampleCfg.getField .silent :=
  ⟨(config_setters_frame sampleCfg (.okMsg "x")).1,
    (config_setters_frame sampleCfg (.okMsg "x")).2 .silent (by decide)⟩

end SlogGorm
